import Mathlib

/-!
Shallow embedding of `src/mariprog/main.py` (repository `mariprog`).

The program reads CSV exports about port facility inspections, correlates
them by facility/site name and prints reports.  Pure functions of the
source are translated to Lean functions; Python exceptions are modelled
with `Except PyErr`; the process-wide accumulator lists are modelled by
explicit state passing (`ProgState`).  File reads with their encoding
fallback are modelled by `RawFile`, which carries the (possible) UTF-8
decoding and the always-available Latin-1 decoding of the same bytes;
a decode failure is modelled as detected before any row is delivered.
-/

/-- Python exception classes that the program can raise.  `nameError`
carries the referenced-but-undefined identifier (this also covers
`UnboundLocalError`, its subclass). -/
inductive PyErr
  | indexError
  | valueError
  | nameError (n : String)
deriving DecidableEq, Repr

instance {ε α : Type} [DecidableEq ε] [DecidableEq α] : DecidableEq (Except ε α) := fun x y =>
  match x, y with
  | .error e, .error f =>
    if h : e = f then isTrue (by rw [h]) else isFalse (by intro hc; cases hc; exact h rfl)
  | .ok a, .ok b =>
    if h : a = b then isTrue (by rw [h]) else isFalse (by intro hc; cases hc; exact h rfl)
  | .error _, .ok _ => isFalse (by intro hc; cases hc)
  | .ok _, .error _ => isFalse (by intro hc; cases hc)

/-- `l[i]` on a Python list: the element, or an `IndexError`. -/
def pyIdx {α : Type} (l : List α) (i : Nat) : Except PyErr α :=
  match l[i]? with
  | some a => .ok a
  | none => .error .indexError

/-- Drop leading whitespace characters (used to build `strip`/`rstrip`). -/
def stripLeadingWs : List Char → List Char
  | [] => []
  | c :: cs => if c.isWhitespace then stripLeadingWs cs else c :: cs

/-- Python `str.rstrip()`: remove trailing whitespace. -/
def pyRstrip (s : String) : String :=
  ⟨(stripLeadingWs s.toList.reverse).reverse⟩

/-- Python `str.strip()`: remove leading and trailing whitespace. -/
def pyStrip (s : String) : String :=
  ⟨stripLeadingWs (stripLeadingWs s.toList.reverse).reverse⟩

/-- Split a character list at every separator character, keeping empty
pieces (the behaviour of Python `str.split(sep)` for a one-character
separator). -/
def splitSepAux (sep : Char) : List Char → List Char → List (List Char)
  | [], acc => [acc.reverse]
  | c :: cs, acc =>
    if c == sep then acc.reverse :: splitSepAux sep cs []
    else splitSepAux sep cs (c :: acc)

/-- Python `s.split(sep)` for a one-character separator. -/
def pySplitOn (s : String) (sep : Char) : List String :=
  (splitSepAux sep s.toList []).map String.mk

/-- Split at whitespace, still keeping empty pieces (helper for
`pySplitWs`). -/
def splitWsAux : List Char → List Char → List (List Char)
  | [], acc => [acc.reverse]
  | c :: cs, acc =>
    if c.isWhitespace then acc.reverse :: splitWsAux cs []
    else splitWsAux cs (c :: acc)

/-- Python `s.split()` with no argument: split on whitespace runs and
discard empty pieces. -/
def pySplitWs (s : String) : List String :=
  ((splitWsAux s.toList []).filter (· ≠ [])).map String.mk

/-- Numeric value of a digit list (used under an all-digits guard). -/
def digitsVal (l : List Char) : Nat :=
  l.foldl (fun n c => n * 10 + (c.toNat - '0'.toNat)) 0

/-- A non-empty all-digit character list parsed as a `Nat`. -/
def digitsToNat (l : List Char) : Option Nat :=
  if l ≠ [] ∧ l.all Char.isDigit then some (digitsVal l) else none

/-- Python `int(s)` on a string: surrounding whitespace is ignored, an
optional sign is allowed, the rest must be (ASCII) digits; anything else
is a `ValueError` (modelled as `none`). -/
def pyInt (s : String) : Option Int :=
  match stripLeadingWs (stripLeadingWs s.toList.reverse).reverse with
  | [] => none
  | c :: rest =>
    if c == '-' then (digitsToNat rest).map (fun n => -(n : Int))
    else if c == '+' then (digitsToNat rest).map (fun n => (n : Int))
    else (digitsToNat (c :: rest)).map (fun n => (n : Int))

/-- Python `int(s)` with the `ValueError` made explicit. -/
def pyIntE (s : String) : Except PyErr Int :=
  match pyInt s with
  | some n => .ok n
  | none => .error .valueError

/-- A calendar date (`datetime.date`). -/
structure Date where
  year : Nat
  month : Nat
  day : Nat
deriving DecidableEq, Repr

/-- Lexicographic order on dates, as Python compares `date` values. -/
def Date.le (a b : Date) : Prop :=
  a.year < b.year ∨ (a.year = b.year ∧
    (a.month < b.month ∨ (a.month = b.month ∧ a.day ≤ b.day)))

instance : DecidableRel Date.le := fun a b => by
  unfold Date.le; exact inferInstance

theorem Date.le_refl (a : Date) : Date.le a a := by
  unfold Date.le; omega

theorem Date.le_trans {a b c : Date} (h1 : Date.le a b) (h2 : Date.le b c) :
    Date.le a c := by
  unfold Date.le at *; omega

theorem Date.le_total (a b : Date) : Date.le a b ∨ Date.le b a := by
  unfold Date.le; omega

/-- Gregorian leap year, as `calendar`/`datetime` use it. -/
def isLeap (y : Nat) : Bool :=
  y % 4 == 0 && (y % 100 != 0 || y % 400 == 0)

/-- Days in a month of a given year. -/
def daysInMonth (y m : Nat) : Nat :=
  if m == 2 then (if isLeap y then 29 else 28)
  else if m == 4 || m == 6 || m == 9 || m == 11 then 30
  else 31

/-- `datetime.date.fromisoformat`: accepts exactly `YYYY-MM-DD` with
zero-padded numeric components and a valid calendar date (year at least
1), otherwise raises `ValueError`. -/
def date_fromisoformat (s : String) : Except PyErr Date :=
  match pySplitOn s '-' with
  | [y, m, d] =>
    if y.toList.length = 4 ∧ y.toList.all Char.isDigit ∧
       m.toList.length = 2 ∧ m.toList.all Char.isDigit ∧
       d.toList.length = 2 ∧ d.toList.all Char.isDigit then
      let yn := digitsVal y.toList
      let mn := digitsVal m.toList
      let dn := digitsVal d.toList
      if 1 ≤ yn ∧ 1 ≤ mn ∧ mn ≤ 12 ∧ 1 ≤ dn ∧ dn ≤ daysInMonth yn mn then
        .ok ⟨yn, mn, dn⟩
      else .error .valueError
    else .error .valueError
  | _ => .error .valueError

/-- `_convert_year_str` (main.py:35): a 2-digit year string gets `"20"`
prefixed, otherwise the string is returned unchanged. -/
def _convert_year_str (year_str : String) : String :=
  if year_str.toList.length = 2 then "20" ++ year_str
  else if year_str.toList.length = 4 then year_str
  else year_str

/-- `parse_programme_date` (main.py:28): split `"D/M/Y"` on `/` and
rebuild an ISO string for `date.fromisoformat`.  Index errors from too
few parts and `ValueError` from `fromisoformat` propagate. -/
def parse_programme_date (date_string : String) : Except PyErr Date := do
  let dstring := pySplitOn date_string '/'
  let y ← pyIdx dstring 2
  let m ← pyIdx dstring 1
  let d ← pyIdx dstring 0
  date_fromisoformat (String.intercalate "-" [_convert_year_str y, m, d])

/-- `_convert_str_to_bool` (main.py:108).  The fallthrough executes
`raise ValueError("Cannot recognise {bstr}".format(bst))`: evaluating the
argument references the undefined name `bst`, so what actually propagates
is a `NameError`, not the intended `ValueError`. -/
def _convert_str_to_bool (bstr : String) : Except PyErr Bool :=
  if bstr ∈ ["TRUE", "True", "true", "YES", "yes", "Yes"] then .ok true
  else if bstr ∈ ["FALSE", "False", "false", "No", "NO", "no"] then .ok false
  else .error (.nameError "bst")

/-- A timestamp (`datetime.datetime` restricted to the fields the program
sets: year, month, day, hour, minute). -/
structure Datetime where
  year : Nat
  month : Nat
  day : Nat
  hour : Nat
  minute : Nat
deriving DecidableEq, Repr

/-- The result of `_convert_datetime_str_to_datetime`: either the empty
string placeholder (returned for empty input) or a timestamp. -/
inductive DatetimeOrEmpty
  | empty
  | dt (d : Datetime)
deriving DecidableEq, Repr

/-- The `datetime.datetime(year, month, day, hour, minute)` constructor:
validates the ranges and raises `ValueError` outside them. -/
def datetime_new (year month day hour minute : Int) : Except PyErr Datetime :=
  if 1 ≤ year ∧ year ≤ 9999 ∧ 1 ≤ month ∧ month ≤ 12 ∧
     1 ≤ day ∧ day ≤ (daysInMonth year.toNat month.toNat : Int) ∧
     0 ≤ hour ∧ hour ≤ 23 ∧ 0 ≤ minute ∧ minute ≤ 59 then
    .ok ⟨year.toNat, month.toNat, day.toNat, hour.toNat, minute.toNat⟩
  else .error .valueError

/-- `_convert_datetime_str_to_datetime` (main.py:117).  Docstring of the
source: "Must be of the form 14-05-2014 11:00".  Empty input returns the
empty string; otherwise the year/month/day are read from
`dstr.split()[0].split("-")`, then hour/minute from
`dstr.split()[1].split(":")` — so an input without a time component hits
`split()[1]` and raises `IndexError`. -/
def _convert_datetime_str_to_datetime (dstr : String) : Except PyErr DatetimeOrEmpty :=
  if dstr = "" then .ok .empty
  else do
    let tokens := pySplitWs dstr
    let dtok ← pyIdx tokens 0
    let dparts := pySplitOn dtok '-'
    let year ← pyIdx dparts 2 >>= pyIntE
    let month ← pyIdx dparts 1 >>= pyIntE
    let day ← pyIdx dparts 0 >>= pyIntE
    let ttok ← pyIdx tokens 1
    let tparts := pySplitOn ttok ':'
    let hour ← pyIdx tparts 0 >>= pyIntE
    let minute ← pyIdx tparts 1 >>= pyIntE
    let d ← datetime_new year month day hour minute
    .ok (.dt d)

/-- Shared body of `PortFromPFSARow.parse_date_string` (main.py:205) and
`PortFromCSVRow.parse_date_string` (main.py:250), which are identical in
the source: only a missing first token (empty or all-whitespace string)
is caught and replaced by the 1900-01-01 sentinel; a malformed non-empty
string raises (`IndexError` from `split("-")[2]` or `ValueError` from
`fromisoformat`). -/
def parse_date_string (date_string : String) : Except PyErr Date :=
  match (pySplitWs date_string).head? with
  | none => .ok ⟨1900, 1, 1⟩
  | some dstring => do
    let y ← pyIdx (pySplitOn dstring '-') 2
    let m ← pyIdx (pySplitOn dstring '-') 1
    let d ← pyIdx (pySplitOn dstring '-') 0
    date_fromisoformat (String.intercalate "-" [y, m, d])

/-- One `csv.DictReader` row of `pfsa.csv` restricted to the columns the
program reads.  `PFSAApproval`/`PFSAExpiry` stand for the CSV headers
"PFSA Approval"/"PFSA Expiry" (Lean names cannot contain spaces). -/
structure PfsaRawRow where
  SiteName : String
  PFSAApproval : String
  PFSAExpiry : String
deriving DecidableEq, Repr

/-- `PortFromPFSARow` (main.py:199). -/
structure PortFromPFSARow where
  site_name : String
  pfsa_approval_date : Date
  pfsa_expiry_date : Date
deriving DecidableEq, Repr

/-- The `PortFromPFSARow.__init__` constructor (main.py:200): strip the
site name, parse the approval date then the expiry date. -/
def PortFromPFSARow.ofRow (row : PfsaRawRow) : Except PyErr PortFromPFSARow := do
  let approval ← parse_date_string row.PFSAApproval
  let expiry ← parse_date_string row.PFSAExpiry
  .ok ⟨pyStrip row.SiteName, approval, expiry⟩

/-- Comparison key of the `sorted(..., key=lambda x: x.pfsa_expiry_date)`
call in `parse_pfsa_csv` (main.py:232). -/
def expiryLe (a b : PortFromPFSARow) : Prop :=
  Date.le a.pfsa_expiry_date b.pfsa_expiry_date

instance : DecidableRel expiryLe := fun a b =>
  inferInstanceAs (Decidable (Date.le a.pfsa_expiry_date b.pfsa_expiry_date))

instance : IsTotal PortFromPFSARow expiryLe :=
  ⟨fun a b => Date.le_total a.pfsa_expiry_date b.pfsa_expiry_date⟩

instance : IsTrans PortFromPFSARow expiryLe :=
  ⟨fun _ _ _ h1 h2 => Date.le_trans h1 h2⟩

instance : IsRefl PortFromPFSARow expiryLe :=
  ⟨fun a => Date.le_refl a.pfsa_expiry_date⟩

/-- The row loop of `parse_pfsa_csv`: construct a `PortFromPFSARow` per
row, in file order; a construction error aborts the parse. -/
def parse_pfsa_rows : List PfsaRawRow → Except PyErr (List PortFromPFSARow)
  | [] => .ok []
  | r :: rs => do
    let port ← PortFromPFSARow.ofRow r
    let rest ← parse_pfsa_rows rs
    .ok (port :: rest)

/-- `parse_pfsa_csv` (main.py:216): parse every row, then return the
records sorted ascending by `pfsa_expiry_date` (Python `sorted` is a
stable sort; `List.insertionSort` with a total preorder produces the same
list). -/
def parse_pfsa_csv (rows : List PfsaRawRow) : Except PyErr (List PortFromPFSARow) := do
  let list_of_ports ← parse_pfsa_rows rows
  .ok (List.insertionSort expiryLe list_of_ports)

/-- The fixed inspector roster `INITIALS` (main.py:23). -/
def INITIALS : List String :=
  ["KS", "PN", "SP", "ML", "SC", "DS", "WW", "GE", "TL", "PD", "AO"]

/-- An `Inspection` (main.py:44): the parsed week-beginning date and the
raw header/value pairs of the row. -/
structure Inspection where
  week_begining : Date
  inspection_data : List (String × String)
deriving DecidableEq, Repr

/-- `[item[1] for item in data if item[0] == key][0]` — the value of the
first pair with the given key; an empty comprehension means the `[0]`
raises `IndexError` (modelled by `none`). -/
def lookupField (data : List (String × String)) (key : String) : Option String :=
  ((data.filter (fun item => item.1 == key)).map (fun item => item.2)).head?

/-- `Inspection.facility` (main.py:53). -/
def Inspection.facility (i : Inspection) : Option String :=
  lookupField i.inspection_data "Facility"

/-- `Inspection.location` (main.py:57). -/
def Inspection.location (i : Inspection) : Option String :=
  lookupField i.inspection_data "Location"

/-- `Inspection.comments` (main.py:69): the "Comments/Date" field. -/
def Inspection.comments (i : Inspection) : Option String :=
  lookupField i.inspection_data "Comments/Date"

/-- `Inspection.inspectors` (main.py:61): keys of the pairs whose value
is "X" and whose key is in the `INITIALS` roster. -/
def Inspection.inspectors (i : Inspection) : List String :=
  (i.inspection_data.filter
    (fun item => item.2 == "X" && INITIALS.contains item.1)).map (fun item => item.1)

/-- The value stored in `PresentableInspection.pfsa_expiry`: either a
date, or the string sentinel "NO PFSA EXPIRY DATA" assigned on a lookup
miss (main.py:176). -/
inductive PfsaExpiryField
  | date (d : Date)
  | noData
deriving DecidableEq, Repr

/-- `PresentableInspection` (main.py:85). -/
structure PresentableInspection where
  week_begining : Date
  location : String
  facility : String
  inspectors : String
  comments : String
  pfsa_expiry : PfsaExpiryField
  pfsa_approval : Date
deriving DecidableEq, Repr

/-- The PFSA lookup of main.py:172:
`[x for x in pfsa if x.site_name == inspection.facility.rstrip()][0]`,
with the `IndexError` of both a missing "Facility" field and an empty
comprehension caught by the surrounding `except IndexError`. -/
def pfsa_lookup (pfsa : List PortFromPFSARow) (facility : Option String) :
    Option PortFromPFSARow :=
  match facility with
  | none => none
  | some fac => (pfsa.filter (fun x => x.site_name == pyRstrip fac)).head?

/-- One iteration of the correlation loop (main.py:170-186).  `apr` is
the current value of the local `_pfsa_apr`: `none` while it is still
unbound.  On a lookup miss only `_pfsa_exp` is reassigned, so `_pfsa_apr`
keeps its previous value — and if it was never assigned, building the
`PresentableInspection` raises `UnboundLocalError` (a `NameError`). -/
def correlate_row (pfsa : List PortFromPFSARow) (apr : Option Date)
    (insp : Inspection) : Except PyErr (PresentableInspection × Option Date) := do
  let hit := pfsa_lookup pfsa insp.facility
  let exp_ : PfsaExpiryField :=
    match hit with
    | some e => .date e.pfsa_expiry_date
    | none => .noData
  let apr' : Option Date :=
    match hit with
    | some e => some e.pfsa_approval_date
    | none => apr
  match insp.location with
  | none => .error .indexError
  | some loc =>
    match insp.facility with
    | none => .error .indexError
    | some fac =>
      match insp.comments with
      | none => .error .indexError
      | some comm =>
        match apr' with
        | none => .error (.nameError "_pfsa_apr")
        | some aprDate =>
          .ok (⟨insp.week_begining, loc, fac,
                String.intercalate "|" insp.inspectors, pyRstrip comm,
                exp_, aprDate⟩, apr')

/-- The correlation loop of `parse_programme` over a list of inspections,
threading the `_pfsa_apr` local. -/
def correlate_loop (pfsa : List PortFromPFSARow) :
    List Inspection → Option Date → Except PyErr (List PresentableInspection)
  | [], _ => .ok []
  | insp :: rest, apr => do
    let (pi, apr') ← correlate_row pfsa apr insp
    let tail ← correlate_loop pfsa rest apr'
    .ok (pi :: tail)

/-- The whole correlation phase of `parse_programme`: `_pfsa_apr` starts
out unbound. -/
def correlate (pfsa : List PortFromPFSARow) (inspections : List Inspection) :
    Except PyErr (List PresentableInspection) :=
  correlate_loop pfsa inspections none

/-- The regular expression `DATE_PATTERN` (main.py:25),
`^\d{1,2}/\d{1,2}/\d{2,4}$`: two slash-separated 1-2 digit groups then a
2-4 digit group. -/
def isDatePattern (s : String) : Bool :=
  match pySplitOn s '/' with
  | [d, m, y] =>
    d.toList.all Char.isDigit && decide (1 ≤ d.toList.length) && decide (d.toList.length ≤ 2) &&
    m.toList.all Char.isDigit && decide (1 ≤ m.toList.length) && decide (m.toList.length ≤ 2) &&
    y.toList.all Char.isDigit && decide (2 ≤ y.toList.length) && decide (y.toList.length ≤ 4)
  | _ => false

/-- The process-wide accumulators that `parse_programme` reads and
appends to (main.py:20-24): `inspections_in_programme`,
`presentable_inspections` and `WEEKS`. -/
structure ProgState where
  inspections_in_programme : List Inspection
  presentable_inspections : List PresentableInspection
  WEEKS : List Date
deriving DecidableEq, Repr

/-- The empty accumulators a fresh process starts with. -/
def progInit : ProgState := ⟨[], [], []⟩

/-- `_get_header_key_from_csv` (main.py:77) together with its effect on
the shared file handle: it consumes rows until the one whose first cell
is "Week Comm" and returns that row; the main loop of `parse_programme`
then only sees the remaining rows.  `row[0]` on an empty row raises
`IndexError`. -/
def _get_header_key_from_csv :
    List (List String) → Except PyErr (Option (List String) × List (List String))
  | [] => .ok (none, [])
  | row :: rows =>
    match row.head? with
    | none => .error .indexError
    | some r0 =>
      if r0 = "Week Comm" then .ok (some row, rows)
      else _get_header_key_from_csv rows

/-- The row loop of `parse_programme` (main.py:160-168): a row whose
first cell matches `DATE_PATTERN` starts a new week (appending to
`WEEKS`), a row with an empty first cell continues the current week, and
any other row is skipped.  Returns the new inspections and the new
weeks, in order. -/
def programme_scan (key : List String) :
    List (List String) → String → Except PyErr (List Inspection × List Date)
  | [], _ => .ok ([], [])
  | row :: rows, current_week =>
    match row.head? with
    | none => .error .indexError
    | some r0 =>
      if isDatePattern r0 then do
        let wd ← parse_programme_date r0
        let insp : Inspection := ⟨wd, key.zip row⟩
        let (is_, ws) ← programme_scan key rows r0
        .ok (insp :: is_, wd :: ws)
      else if r0 = "" then do
        let wd ← parse_programme_date current_week
        let insp : Inspection := ⟨wd, key.zip row⟩
        let (is_, ws) ← programme_scan key rows current_week
        .ok (insp :: is_, ws)
      else
        programme_scan key rows current_week

/-- The main row loop of `parse_programme` given the result of the
header search: with no "Week Comm" header row the shared file handle is
already exhausted, so the loop body never runs and nothing is parsed. -/
def programme_scan_opt :
    Option (List String) → List (List String) →
    Except PyErr (List Inspection × List Date)
  | some key, rest => programme_scan key rest ""
  | none, _ => .ok ([], [])

/-- `parse_programme` (main.py:149): parse `pfsa.csv`, scan the
programme rows appending to `inspections_in_programme` and `WEEKS`, then
correlate every accumulated inspection (old and new) against the PFSA
records, appending the results to `presentable_inspections`.  The
printing of the rows is a side effect on stdout and is not modelled. -/
def parse_programme (rows : List (List String)) (pfsaRows : List PfsaRawRow)
    (st : ProgState) : Except PyErr ProgState := do
  let pfsa_expiry_data_lst ← parse_pfsa_csv pfsaRows
  let hdr ← _get_header_key_from_csv rows
  let scanned ← programme_scan_opt hdr.1 hdr.2
  let newPres ← correlate pfsa_expiry_data_lst
    (st.inspections_in_programme ++ scanned.1)
  .ok ⟨st.inspections_in_programme ++ scanned.1,
       st.presentable_inspections ++ newPres, st.WEEKS ++ scanned.2⟩

/-- One `csv.DictReader` row of `dump.csv` restricted to the columns the
program reads; "County" may be missing from the export, hence `Option`. -/
structure DumpRawRow where
  SiteName : String
  County : Option String
  DateOfLastInspection : String
  FrequencyTarget : String
  SubCategoryDesc : String
  SiteCategoryDesc : String
  SiteTypeDesc : String
deriving DecidableEq, Repr

/-- `PortFromCSVRow` (main.py:236).  `county` is `none` when the export
has no "County" column (the source swallows the `KeyError` and leaves
the attribute unset). -/
structure PortFromCSVRow where
  site_name : String
  county : Option String
  last_inspection_date : Date
  frequency_target : String
  pfsi_category : String
  site_category : String
deriving DecidableEq, Repr

/-- The `PortFromCSVRow.__init__` constructor (main.py:237): an empty
"FrequencyTarget" cell (falsy in Python) becomes the sentinel "XXXXX",
any other value is stripped. -/
def PortFromCSVRow.ofRow (row : DumpRawRow) : Except PyErr PortFromCSVRow := do
  let d ← parse_date_string row.DateOfLastInspection
  .ok ⟨pyStrip row.SiteName, row.County.map pyStrip, d,
       (if row.FrequencyTarget = "" then "XXXXX" else pyStrip row.FrequencyTarget),
       pyStrip row.SubCategoryDesc, pyStrip row.SiteCategoryDesc⟩

/-- The row loop of `parse_csv` (main.py:265): every row is constructed
(so a bad date aborts even for non-Port rows), but only rows with
`SiteTypeDesc == "Port"` are appended to `LIST_OF_PORTS`.  The returned
list is what one call appends to the accumulator. -/
def parse_csv : List DumpRawRow → Except PyErr (List PortFromCSVRow)
  | [] => .ok []
  | row :: rows => do
    let port ← PortFromCSVRow.ofRow row
    let rest ← parse_csv rows
    if row.SiteTypeDesc = "Port" then .ok (port :: rest) else .ok rest

/-- `dateutil`'s `relativedelta(months=n)` added to a date: month
arithmetic with floor division into years, and the day clamped to the
length of the resulting month.  When the resulting year leaves Python's
supported range 1..9999, the addition raises `ValueError` (already
`calendar.monthrange`, and then `date.replace`, construct a date with
that year). -/
def addMonths (d : Date) (n : Int) : Except PyErr Date :=
  let tot : Int := (d.year : Int) * 12 + ((d.month : Int) - 1) + n
  let y : Int := tot.ediv 12
  let m : Nat := (tot.emod 12).toNat + 1
  if 1 ≤ y ∧ y ≤ 9999 then
    .ok ⟨y.toNat, m, min d.day (daysInMonth y.toNat m)⟩
  else .error .valueError

/-- `in_current_programme` (main.py:320): linear scan of
`inspections_in_programme` for an exact facility/site-name match;
`some week` models the `(True, week_begining)` return and `none` the
`False` return.  A missing "Facility" field raises `IndexError`. -/
def in_current_programme (inspections : List Inspection) (port : PortFromCSVRow) :
    Except PyErr (Option Date) :=
  match inspections with
  | [] => .ok none
  | p :: rest =>
    match p.facility with
    | none => .error .indexError
    | some f =>
      if f = port.site_name then .ok (some p.week_begining)
      else in_current_programme rest port

/-- One printed line of the port expiry report (main.py:317). -/
structure PortReportLine where
  site_name : String
  next_due : Date
  in_prog : Option Date
deriving DecidableEq, Repr

/-- `calculate_port_within_allowed_period` (main.py:312):
`int(port.frequency_target)` — a `ValueError` on the "XXXXX" sentinel —
then `last_inspection_date + relativedelta(months=+ft)`. -/
def calculate_port_within_allowed_period (inspections : List Inspection)
    (port : PortFromCSVRow) : Except PyErr PortReportLine := do
  let ft ← pyIntE port.frequency_target
  let last_insp := port.last_inspection_date
  let calc_ ← addMonths last_insp ft
  let in_prog ← in_current_programme inspections port
  .ok ⟨port.site_name, calc_, in_prog⟩

/-- `print_port_inspection_expiry` (main.py:329): run the calculation for
every port in `LIST_OF_PORTS`; an uncaught exception from any port aborts
the whole loop (no later port is reported). -/
def print_port_inspection_expiry (inspections : List Inspection) :
    List PortFromCSVRow → Except PyErr (List PortReportLine)
  | [] => .ok []
  | port :: rest => do
    let line ← calculate_port_within_allowed_period inspections port
    let tail ← print_port_inspection_expiry inspections rest
    .ok (line :: tail)

/-- One `csv.DictReader` row of `psa.csv` (`psa_meetings.csv`) restricted
to the columns the program reads. -/
structure PsaMeetingRawRow where
  PSA_Name : String
  MeetingDate : String
  PSO : String
  Comments : String
  CommentsFromMeeting : String
  Inspectors : String
  PSPReviewed : String
  PSRAReviewed : String
  MinutesHeld : String
deriving DecidableEq, Repr

/-- `PSAMeeting` (main.py:96). -/
structure PSAMeeting where
  psa : String
  date : DatetimeOrEmpty
  pso : String
  comments : String
  comments_from_meeting : String
  inspectors : String
  psp_reviewed : Bool
  psra_reviewed : Bool
  minutes_held : Bool
deriving DecidableEq, Repr

/-- One row of the `psa_meetings` loop (main.py:134): the meeting-date
conversion runs first, then the three boolean conversions, in argument
order. -/
def PSAMeeting.ofRow (row : PsaMeetingRawRow) : Except PyErr PSAMeeting := do
  let d ← _convert_datetime_str_to_datetime row.MeetingDate
  let psp ← _convert_str_to_bool row.PSPReviewed
  let psra ← _convert_str_to_bool row.PSRAReviewed
  let minutes ← _convert_str_to_bool row.MinutesHeld
  .ok ⟨row.PSA_Name, d, row.PSO, row.Comments, row.CommentsFromMeeting,
       row.Inspectors, psp, psra, minutes⟩

/-- `psa_meetings` (main.py:129): build a `PSAMeeting` per row, in file
order; any conversion error aborts the parse. -/
def psa_meetings : List PsaMeetingRawRow → Except PyErr (List PSAMeeting)
  | [] => .ok []
  | row :: rows => do
    let m ← PSAMeeting.ofRow row
    let rest ← psa_meetings rows
    .ok (m :: rest)

/-- One `csv.DictReader` row of `psa_aid.csv` restricted to the columns
the program reads. -/
structure PsaAidRawRow where
  SiteName : String
  PSO : String
  SiteTypeDesc : String
  PortSecurityAssessmentApprovalDate : String
  DateOfLastInspection : String
  DateInspectionDue : String
deriving DecidableEq, Repr

/-- `PSAData` (main.py:346). -/
structure PSAData where
  psa : String
  pso : String
  psa_approval_date : DatetimeOrEmpty
  date_of_last_inspection : DatetimeOrEmpty
  due_inspection : DatetimeOrEmpty
deriving DecidableEq, Repr

/-- `get_psa_assessment_data` (main.py:354): keep only rows with
`SiteTypeDesc == "PSA"` (the filter runs before any conversion) and
convert the three datetime columns. -/
def get_psa_assessment_data : List PsaAidRawRow → Except PyErr (List PSAData)
  | [] => .ok []
  | row :: rows =>
    if row.SiteTypeDesc = "PSA" then do
      let approval ← _convert_datetime_str_to_datetime row.PortSecurityAssessmentApprovalDate
      let last ← _convert_datetime_str_to_datetime row.DateOfLastInspection
      let due ← _convert_datetime_str_to_datetime row.DateInspectionDue
      let rest ← get_psa_assessment_data rows
      .ok (⟨row.SiteName, row.PSO, approval, last, due⟩ :: rest)
    else get_psa_assessment_data rows

/-- A CSV file as raw bytes, represented by its two candidate decodings:
`utf8` is `some` rows exactly when the bytes are valid UTF-8, while the
Latin-1 decoding of any byte sequence succeeds.  A decode failure is
modelled as detected before any row is delivered. -/
structure RawFile (σ : Type) where
  utf8 : Option σ
  latin1 : σ

/-- `open(f, encoding="utf-8")` wrapped in `except UnicodeDecodeError`
with an `open(f, encoding="ISO-8859-1")` retry — the pattern of
`parse_pfsa_csv` (main.py:219-227) and `parse_csv` (main.py:269-278). -/
def readUtf8WithLatin1Fallback {σ : Type} (f : RawFile σ) : σ :=
  f.utf8.getD f.latin1

/-- A direct `open(f, encoding="ISO-8859-1")` with no UTF-8 attempt — the
pattern of `psa_meetings` (main.py:131), `parse_programme` (main.py:157)
and `get_psa_assessment_data` (main.py:356). -/
def readLatin1 {σ : Type} (f : RawFile σ) : σ :=
  f.latin1

/-- `parse_pfsa_csv` applied to its file: UTF-8 first, Latin-1 fallback
(main.py:219-227). -/
def parse_pfsa_csv_file (f : RawFile (List PfsaRawRow)) :
    Except PyErr (List PortFromPFSARow) :=
  parse_pfsa_csv (readUtf8WithLatin1Fallback f)

/-- `parse_csv` applied to its file: UTF-8 first, Latin-1 fallback
(main.py:269-278). -/
def parse_csv_file (f : RawFile (List DumpRawRow)) :
    Except PyErr (List PortFromCSVRow) :=
  parse_csv (readUtf8WithLatin1Fallback f)

/-- `psa_meetings` applied to its file: the source opens it directly with
ISO-8859-1 (main.py:131). -/
def psa_meetings_file (f : RawFile (List PsaMeetingRawRow)) :
    Except PyErr (List PSAMeeting) :=
  psa_meetings (readLatin1 f)

/-- `get_psa_assessment_data` applied to its file: the source opens it
directly with ISO-8859-1 (main.py:356). -/
def get_psa_assessment_data_file (f : RawFile (List PsaAidRawRow)) :
    Except PyErr (List PSAData) :=
  get_psa_assessment_data (readLatin1 f)

/-- `parse_programme` applied to its files: the programme file is opened
directly with ISO-8859-1 (main.py:157), while the `pfsa.csv` it parses
internally gets the UTF-8-then-Latin-1 treatment. -/
def parse_programme_file (f : RawFile (List (List String)))
    (pfsaFile : RawFile (List PfsaRawRow)) (st : ProgState) :
    Except PyErr ProgState :=
  parse_programme (readLatin1 f) (readUtf8WithLatin1Fallback pfsaFile) st

/-! ## Concrete inputs used by the claim theorems -/

/-- A `pfsa.csv` with a single record for "Dock A" (site name stored with
surrounding whitespace, stripped at parse). -/
def c1pfsaRows : List PfsaRawRow :=
  [⟨" Dock A ", "01-01-2024", "01-06-2025"⟩]

/-- A programme file whose first (and only) inspection, "Dock X", matches
no PFSA record. -/
def c1missRows : List (List String) :=
  [["Week Comm", "Location", "Facility", "KS", "Comments/Date"],
   ["06/05/2024", "North", "Dock X", "X", "ok"]]

/-- A programme file whose first inspection ("Dock A") matches the PFSA
record and whose second ("Dock B", a continuation row of the same week)
matches nothing. -/
def c1progRows : List (List String) :=
  [["Week Comm", "Location", "Facility", "KS", "Comments/Date"],
   ["06/05/2024", "North", "Dock A", "X", "ok"],
   ["", "South", "Dock B", "", "later "]]

/-- C1: the claim says a PFSA lookup miss still emits the inspection row
with both PFSA fields at the "NO PFSA EXPIRY DATA" sentinel, wherever the
miss occurs.  The code's `except IndexError` branch assigns only
`_pfsa_exp`: when the miss is the first row the whole run aborts with an
unbound-local `NameError` on `_pfsa_apr` and nothing is emitted, and when
the miss comes after a match the row is emitted with the previous match's
approval date (stale data), not a sentinel. -/
theorem pfsa_miss_crashes_first_row_and_leaks_stale_approval_later :
    parse_programme c1missRows c1pfsaRows progInit = .error (.nameError "_pfsa_apr") ∧
    (parse_programme c1progRows c1pfsaRows progInit).map
        (fun st => st.presentable_inspections.map
          (fun pi => (pi.facility, pi.pfsa_expiry, pi.pfsa_approval))) =
      .ok [("Dock A", .date ⟨2025, 6, 1⟩, ⟨2024, 1, 1⟩),
           ("Dock B", .noData, ⟨2024, 1, 1⟩)] :=
  ⟨rfl, rfl⟩

/-- A `dump.csv` with three Port rows; the middle one has an empty
"FrequencyTarget" cell, which the parser turns into the "XXXXX"
sentinel. -/
def c2dumpRows : List DumpRawRow :=
  [⟨"Port A", none, "15-01-2024", "6", "S", "C", "Port"⟩,
   ⟨"Port B", none, "01-02-2023", "", "S", "C", "Port"⟩,
   ⟨"Port C", none, "01-03-2022", "12", "S", "C", "Port"⟩]

/-- C2: the claim says a port whose `frequency_target` is the unknown
sentinel gets its line marked unparseable while the remaining ports are
still reported.  The code instead calls `int("XXXXX")`, whose
`ValueError` is caught nowhere: the whole
`print_port_inspection_expiry` report aborts and the ports after the bad
one are never reported. -/
theorem expiry_report_aborts_on_sentinel_frequency_target :
    parse_csv c2dumpRows =
      .ok [⟨"Port A", none, ⟨2024, 1, 15⟩, "6", "S", "C"⟩,
           ⟨"Port B", none, ⟨2023, 2, 1⟩, "XXXXX", "S", "C"⟩,
           ⟨"Port C", none, ⟨2022, 3, 1⟩, "12", "S", "C"⟩] ∧
    (do
      let ports ← parse_csv c2dumpRows
      print_port_inspection_expiry [] ports) = .error .valueError :=
  ⟨rfl, rfl⟩

/-- C3 counterexample: the claim says every case variant of "true" is
accepted and any other string raises a `ValueError` naming it.  The mixed
case "tRUE" is not in the accepted lists, and the fall-through `raise`
itself crashes with a `NameError` (its message formats the undefined name
`bst`), so "maybe" gets a `NameError`, not a `ValueError`. -/
theorem convert_str_to_bool_claim_counterexample :
    _convert_str_to_bool "tRUE" = .error (.nameError "bst") ∧
    _convert_str_to_bool "maybe" = .error (.nameError "bst") :=
  ⟨rfl, rfl⟩

/-- C3 amended: `_convert_str_to_bool` returns `True` exactly for the six
variants TRUE/True/true/YES/yes/Yes, `False` exactly for
FALSE/False/false/No/NO/no, and for every other string its `raise`
statement fails with a `NameError` on the undefined name `bst` (so no
string outside the two lists ever produces a boolean, but the error is
not the intended `ValueError`). -/
theorem convert_str_to_bool_amended :
    (∀ s ∈ (["TRUE", "True", "true", "YES", "yes", "Yes"] : List String),
      _convert_str_to_bool s = .ok true) ∧
    (∀ s ∈ (["FALSE", "False", "false", "No", "NO", "no"] : List String),
      _convert_str_to_bool s = .ok false) ∧
    (∀ s : String, s ∉ (["TRUE", "True", "true", "YES", "yes", "Yes"] : List String) →
      s ∉ (["FALSE", "False", "false", "No", "NO", "no"] : List String) →
      _convert_str_to_bool s = .error (.nameError "bst")) := by
  refine ⟨?_, ?_, ?_⟩
  · intro s hs
    simp only [List.mem_cons, List.not_mem_nil, or_false] at hs
    rcases hs with h | h | h | h | h | h <;> subst h <;> rfl
  · intro s hs
    simp only [List.mem_cons, List.not_mem_nil, or_false] at hs
    rcases hs with h | h | h | h | h | h <;> subst h <;> rfl
  · intro s h1 h2
    unfold _convert_str_to_bool
    rw [if_neg h1, if_neg h2]

/-- Witness for `convert_str_to_bool_amended` at concrete inputs. -/
theorem convert_str_to_bool_amended_witness :
    _convert_str_to_bool "Yes" = .ok true ∧
    _convert_str_to_bool "maybe" = .error (.nameError "bst") :=
  ⟨convert_str_to_bool_amended.1 "Yes" (by decide),
   convert_str_to_bool_amended.2.2 "maybe" (by decide) (by decide)⟩

/-! ## Helper lemmas shared by the sorting/lookup claims -/

/-- The head of the filtered part of a `Pairwise r` list is related by
`r` to every element of the list satisfying the filter. -/
theorem head_filter_spec {α : Type} {r : α → α → Prop} [IsRefl α r] {p : α → Bool}
    {l : List α} (hs : l.Pairwise r) {e : α}
    (he : (l.filter p).head? = some e) :
    e ∈ l ∧ p e = true ∧ ∀ x ∈ l, p x = true → r e x := by
  induction l with
  | nil => simp at he
  | cons a t ih =>
    rcases List.pairwise_cons.mp hs with ⟨ha, ht⟩
    by_cases hpa : p a
    · rw [List.filter_cons_of_pos hpa] at he
      rw [List.head?_cons, Option.some.injEq] at he
      subst he
      refine ⟨List.mem_cons_self _ _, hpa, ?_⟩
      intro x hx _
      rcases List.mem_cons.mp hx with h | h
      · subst h; exact IsRefl.refl _
      · exact ha x h
    · rw [List.filter_cons_of_neg hpa] at he
      obtain ⟨hmem, hpe, hmin⟩ := ih ht he
      refine ⟨List.mem_cons_of_mem _ hmem, hpe, ?_⟩
      intro x hx hpx
      rcases List.mem_cons.mp hx with h | h
      · subst h; exact absurd hpx hpa
      · exact hmin x h hpx

/-- A successful `parse_pfsa_csv` is the insertion sort (by expiry date)
of a successful row-loop parse. -/
theorem parse_pfsa_csv_eq_sort {rows : List PfsaRawRow}
    {ports l : List PortFromPFSARow}
    (h : parse_pfsa_csv rows = .ok ports)
    (hl : parse_pfsa_rows rows = .ok l) :
    ports = List.insertionSort expiryLe l := by
  unfold parse_pfsa_csv at h
  rw [hl] at h
  exact (Except.ok.inj h).symm

/-- A `pfsa.csv` with two records sharing the site name "Dock A": the
first in file order expires 2025-06-01, the second expires 2020-01-01. -/
def c4pfsaRows : List PfsaRawRow :=
  [⟨"Dock A", "01-01-2024", "01-06-2025"⟩,
   ⟨"Dock A", "05-05-2019", "01-01-2020"⟩]

/-- An inspection of facility "Dock A". -/
def c4insp : Inspection :=
  ⟨⟨2024, 5, 6⟩,
   [("Location", "North"), ("Facility", "Dock A"), ("Comments/Date", "ok")]⟩

/-- C4 counterexample: with two PFSA records for "Dock A", the claim says
the correlation fills the PFSA fields from the record that is first in
file order (approval 2024-01-01, expiry 2025-06-01).  Because
`parse_pfsa_csv` sorts by expiry date before the join, the correlation
instead picks the second file row (approval 2019-05-05, expiry
2020-01-01). -/
theorem correlation_picks_second_file_row_counterexample :
    (do
      let ps ← parse_pfsa_csv c4pfsaRows
      correlate ps [c4insp]).map
        (List.map (fun pi : PresentableInspection =>
          (pi.pfsa_expiry, pi.pfsa_approval))) =
      .ok [(.date ⟨2020, 1, 1⟩, ⟨2019, 5, 5⟩)] ∧
    (⟨2019, 5, 5⟩ : Date) ≠ (⟨2024, 1, 1⟩ : Date) :=
  ⟨rfl, by decide⟩

/-- C4 amended: when several PFSA records match an inspection's trimmed
facility name, the lookup inside the correlation (main.py:172, factored
as `pfsa_lookup`) picks a matching record whose `pfsa_expiry_date` is
minimal among all matching records of the parse — the earliest-expiry
match wins, not the first in file order. -/
theorem pfsa_lookup_picks_minimal_expiry_match
    (rows : List PfsaRawRow) (ports l : List PortFromPFSARow)
    (h : parse_pfsa_csv rows = .ok ports)
    (hl : parse_pfsa_rows rows = .ok l)
    (fac : String) (e : PortFromPFSARow)
    (he : pfsa_lookup ports (some fac) = some e) :
    e ∈ ports ∧ e.site_name = pyRstrip fac ∧
      ∀ x ∈ ports, x.site_name = pyRstrip fac →
        Date.le e.pfsa_expiry_date x.pfsa_expiry_date := by
  have hsort : ports = List.insertionSort expiryLe l := parse_pfsa_csv_eq_sort h hl
  have hpw : ports.Pairwise expiryLe := by
    rw [hsort]; exact List.sorted_insertionSort expiryLe l
  unfold pfsa_lookup at he
  obtain ⟨hmem, hpe, hmin⟩ := head_filter_spec hpw he
  refine ⟨hmem, eq_of_beq hpe, ?_⟩
  intro x hx hxname
  exact hmin x hx (beq_iff_eq.mpr hxname)

/-- The records of `c4pfsaRows` in the order `parse_pfsa_csv` returns
them (earliest expiry first). -/
def c4ports : List PortFromPFSARow :=
  [⟨"Dock A", ⟨2019, 5, 5⟩, ⟨2020, 1, 1⟩⟩,
   ⟨"Dock A", ⟨2024, 1, 1⟩, ⟨2025, 6, 1⟩⟩]

/-- The records of `c4pfsaRows` in file order, as the row loop parses
them. -/
def c4fileOrder : List PortFromPFSARow :=
  [⟨"Dock A", ⟨2024, 1, 1⟩, ⟨2025, 6, 1⟩⟩,
   ⟨"Dock A", ⟨2019, 5, 5⟩, ⟨2020, 1, 1⟩⟩]

/-- Witness for `pfsa_lookup_picks_minimal_expiry_match` on the
duplicate-site input. -/
theorem pfsa_lookup_picks_minimal_expiry_match_witness :
    (⟨"Dock A", ⟨2019, 5, 5⟩, ⟨2020, 1, 1⟩⟩ : PortFromPFSARow) ∈ c4ports ∧
    (⟨"Dock A", ⟨2019, 5, 5⟩, ⟨2020, 1, 1⟩⟩ : PortFromPFSARow).site_name =
      pyRstrip "Dock A" :=
  ⟨(pfsa_lookup_picks_minimal_expiry_match c4pfsaRows c4ports c4fileOrder
      rfl rfl "Dock A" ⟨"Dock A", ⟨2019, 5, 5⟩, ⟨2020, 1, 1⟩⟩ rfl).1,
   (pfsa_lookup_picks_minimal_expiry_match c4pfsaRows c4ports c4fileOrder
      rfl rfl "Dock A" ⟨"Dock A", ⟨2019, 5, 5⟩, ⟨2020, 1, 1⟩⟩ rfl).2.1⟩

/-- Reduction of the `Except` monad bind on a success value (the
do-notation of the definitions unfolds through this). -/
theorem except_bind_ok {α β : Type} (a : α) (f : α → Except PyErr β) :
    (do let x ← (.ok a : Except PyErr α); f x) = f a := rfl

/-- Reduction of the `Except` monad bind on an error value. -/
theorem except_bind_error {α β : Type} (e : PyErr) (f : α → Except PyErr β) :
    (do let x ← (.error e : Except PyErr α); f x) = .error e := rfl

/-- Every input row of a successful `parse_pfsa_rows` run has its parsed
record in the output list. -/
theorem parse_pfsa_rows_mem {rows : List PfsaRawRow} {l : List PortFromPFSARow}
    (hl : parse_pfsa_rows rows = .ok l) :
    ∀ r ∈ rows, ∃ p ∈ l, PortFromPFSARow.ofRow r = .ok p := by
  induction rows generalizing l with
  | nil => intro r hr; simp at hr
  | cons a t ih =>
    intro r hr
    rw [parse_pfsa_rows] at hl
    cases hpa : PortFromPFSARow.ofRow a with
    | error e => rw [hpa, except_bind_error] at hl; cases hl
    | ok port =>
      rw [hpa, except_bind_ok] at hl
      cases hpt : parse_pfsa_rows t with
      | error e => rw [hpt, except_bind_error] at hl; cases hl
      | ok rest =>
        rw [hpt, except_bind_ok] at hl
        cases hl
        rcases List.mem_cons.mp hr with h | h
        · subst h; exact ⟨port, List.mem_cons_self _ _, hpa⟩
        · obtain ⟨p, hp, hop⟩ := ih hpt r h
          exact ⟨p, List.mem_cons_of_mem _ hp, hop⟩

/-- A PFSA row whose expiry cell is empty (or all whitespace) parses to a
record carrying the 1900-01-01 sentinel expiry and the stripped site
name. -/
theorem ofRow_empty_expiry {r : PfsaRawRow} {p : PortFromPFSARow}
    (h : PortFromPFSARow.ofRow r = .ok p) (hE : pySplitWs r.PFSAExpiry = []) :
    p.site_name = pyStrip r.SiteName ∧ p.pfsa_expiry_date = ⟨1900, 1, 1⟩ := by
  have hexp : parse_date_string r.PFSAExpiry = .ok ⟨1900, 1, 1⟩ := by
    unfold parse_date_string
    rw [hE]
    rfl
  unfold PortFromPFSARow.ofRow at h
  cases ha : parse_date_string r.PFSAApproval with
  | error e => rw [ha, except_bind_error] at h; cases h
  | ok approval =>
    rw [ha, except_bind_ok, hexp, except_bind_ok] at h
    cases h
    exact ⟨rfl, rfl⟩

/-- C10: a successful `parse_pfsa_csv` does not return the records in
file order: the returned list is pairwise non-decreasing in
`pfsa_expiry_date` and is a permutation of the file-order records, and
every row with an empty expiry cell contributes a record carrying the
1900-01-01 sentinel (which the ascending sort places in front of every
later expiry date).  This sorted list, `pfsa_expiry_data_lst`, is the one
the correlation in `parse_programme` scans. -/
theorem parse_pfsa_csv_sorted_by_expiry
    (rows : List PfsaRawRow) (ports l : List PortFromPFSARow)
    (h : parse_pfsa_csv rows = .ok ports)
    (hl : parse_pfsa_rows rows = .ok l) :
    ports.Pairwise expiryLe ∧ ports.Perm l ∧
      ∀ r ∈ rows, pySplitWs r.PFSAExpiry = [] →
        ∃ p ∈ ports, p.site_name = pyStrip r.SiteName ∧
          p.pfsa_expiry_date = ⟨1900, 1, 1⟩ := by
  have hsort : ports = List.insertionSort expiryLe l := parse_pfsa_csv_eq_sort h hl
  have hperm : ports.Perm l := by
    rw [hsort]; exact List.perm_insertionSort expiryLe l
  refine ⟨?_, hperm, ?_⟩
  · rw [hsort]; exact List.sorted_insertionSort expiryLe l
  · intro r hr hE
    obtain ⟨p, hp, hop⟩ := parse_pfsa_rows_mem hl r hr
    obtain ⟨hname, hdate⟩ := ofRow_empty_expiry hop hE
    exact ⟨p, hperm.mem_iff.mpr hp, hname, hdate⟩

/-- A `pfsa.csv` whose file order is not expiry order, with one empty
expiry cell. -/
def c10rows : List PfsaRawRow :=
  [⟨"Harbour A", "01-01-2024", "01-06-2025"⟩,
   ⟨"Harbour B", "", ""⟩]

/-- The records of `c10rows` as `parse_pfsa_csv` returns them: the
sentinel-dated "Harbour B" record first. -/
def c10ports : List PortFromPFSARow :=
  [⟨"Harbour B", ⟨1900, 1, 1⟩, ⟨1900, 1, 1⟩⟩,
   ⟨"Harbour A", ⟨2024, 1, 1⟩, ⟨2025, 6, 1⟩⟩]

/-- The records of `c10rows` in file order. -/
def c10fileOrder : List PortFromPFSARow :=
  [⟨"Harbour A", ⟨2024, 1, 1⟩, ⟨2025, 6, 1⟩⟩,
   ⟨"Harbour B", ⟨1900, 1, 1⟩, ⟨1900, 1, 1⟩⟩]

/-- Witness for `parse_pfsa_csv_sorted_by_expiry` on a concrete file;
the returned order also visibly differs from the file order. -/
theorem parse_pfsa_csv_sorted_by_expiry_witness :
    c10ports.Pairwise expiryLe ∧ c10ports.Perm c10fileOrder ∧
      c10ports ≠ c10fileOrder :=
  ⟨(parse_pfsa_csv_sorted_by_expiry c10rows c10ports c10fileOrder rfl rfl).1,
   (parse_pfsa_csv_sorted_by_expiry c10rows c10ports c10fileOrder rfl rfl).2.1,
   by decide⟩

/-- A PSA meetings row whose parse succeeds (empty meeting date, all
flags "true"). -/
def c5row : PsaMeetingRawRow :=
  ⟨"PSA One", "", "Officer", "", "", "", "true", "true", "true"⟩

/-- C5 counterexample: the claim says every parser attempts UTF-8 first.
For a file whose UTF-8 decoding is available (here: no rows) but whose
Latin-1 decoding differs (one row), `psa_meetings` does not return the
result of parsing the UTF-8 content: it reads the Latin-1 decoding
directly (main.py:131 opens with `encoding="ISO-8859-1"` and there is no
UTF-8 attempt to fall back from). -/
theorem psa_meetings_skips_utf8_counterexample :
    (⟨some [], [c5row]⟩ : RawFile (List PsaMeetingRawRow)).utf8 = some [] ∧
    psa_meetings_file ⟨some [], [c5row]⟩ ≠ psa_meetings [] :=
  ⟨rfl, by decide⟩

/-- C5 amended: only `parse_pfsa_csv` and `parse_csv` try UTF-8 first and
fall back to Latin-1 on a decode failure; `psa_meetings`,
`get_psa_assessment_data` and `parse_programme` (for the programme file
itself) open with ISO-8859-1 directly and never attempt UTF-8. -/
theorem encoding_fallback_only_in_pfsa_and_dump_parsers :
    (∀ (f : RawFile (List PfsaRawRow)) c, f.utf8 = some c →
      parse_pfsa_csv_file f = parse_pfsa_csv c) ∧
    (∀ (f : RawFile (List PfsaRawRow)), f.utf8 = none →
      parse_pfsa_csv_file f = parse_pfsa_csv f.latin1) ∧
    (∀ (f : RawFile (List DumpRawRow)) c, f.utf8 = some c →
      parse_csv_file f = parse_csv c) ∧
    (∀ (f : RawFile (List DumpRawRow)), f.utf8 = none →
      parse_csv_file f = parse_csv f.latin1) ∧
    (∀ (f : RawFile (List PsaMeetingRawRow)),
      psa_meetings_file f = psa_meetings f.latin1) ∧
    (∀ (f : RawFile (List PsaAidRawRow)),
      get_psa_assessment_data_file f = get_psa_assessment_data f.latin1) ∧
    (∀ (f : RawFile (List (List String))) (pf : RawFile (List PfsaRawRow))
        (st : ProgState),
      parse_programme_file f pf st =
        parse_programme f.latin1 (readUtf8WithLatin1Fallback pf) st) := by
  refine ⟨?_, ?_, ?_, ?_, fun f => rfl, fun f => rfl, fun f pf st => rfl⟩
  · intro f c h
    simp [parse_pfsa_csv_file, readUtf8WithLatin1Fallback, h]
  · intro f h
    simp [parse_pfsa_csv_file, readUtf8WithLatin1Fallback, h]
  · intro f c h
    simp [parse_csv_file, readUtf8WithLatin1Fallback, h]
  · intro f h
    simp [parse_csv_file, readUtf8WithLatin1Fallback, h]

/-- Witness for `encoding_fallback_only_in_pfsa_and_dump_parsers` at a
concrete file whose UTF-8 decoding exists. -/
theorem encoding_fallback_witness :
    parse_pfsa_csv_file ⟨some [], c1pfsaRows⟩ = parse_pfsa_csv [] :=
  encoding_fallback_only_in_pfsa_and_dump_parsers.1 ⟨some [], c1pfsaRows⟩ [] rfl

/-- C6 counterexample: the claim says malformed date strings fall back to
the sentinel and never raise.  A malformed non-empty string reaches
`dstring.split("-")[2]` outside the `try`, so it raises `IndexError` in
both `parse_date_string` and `_convert_datetime_str_to_datetime`. -/
theorem malformed_date_raises_counterexample :
    parse_date_string "garbage" = .error .indexError ∧
    _convert_datetime_str_to_datetime "nonsense" = .error .indexError :=
  ⟨rfl, rfl⟩

/-- C6 amended: only an empty (or all-whitespace) date string falls back
to the 1900-01-01 sentinel in `parse_date_string`, and only the empty
string yields the empty placeholder in
`_convert_datetime_str_to_datetime`; a malformed non-empty date string
raises, as does boolean parsing on unrecognized text. -/
theorem empty_dates_fall_back_malformed_raise (s : String)
    (hs : pySplitWs s = []) :
    parse_date_string s = .ok ⟨1900, 1, 1⟩ ∧
    _convert_datetime_str_to_datetime "" = .ok .empty ∧
    parse_date_string "garbage" = .error .indexError ∧
    _convert_str_to_bool "maybe" = .error (.nameError "bst") := by
  refine ⟨?_, rfl, rfl, rfl⟩
  unfold parse_date_string
  rw [hs]
  rfl

/-- Witness for `empty_dates_fall_back_malformed_raise` at a
whitespace-only string. -/
theorem empty_dates_fall_back_witness :
    parse_date_string "   " = .ok ⟨1900, 1, 1⟩ ∧
    _convert_datetime_str_to_datetime "" = .ok .empty ∧
    parse_date_string "garbage" = .error .indexError ∧
    _convert_str_to_bool "maybe" = .error (.nameError "bst") :=
  empty_dates_fall_back_malformed_raise "   " (by decide)

/-- C7 counterexample: the claim says a Shape-B string without a time
component produces a date-only value.  `_convert_datetime_str_to_datetime`
unconditionally reads `dstr.split()[1]` for the time, so the date-only
input "15-01-2024" raises `IndexError` instead. -/
theorem date_only_shape_b_raises_counterexample :
    _convert_datetime_str_to_datetime "15-01-2024" = .error .indexError :=
  rfl

/-- C7 amended: the empty string yields the empty placeholder; an input
with a time component yields a timestamp carrying that hour and minute;
an input whose date part parses but which has no time component raises
`IndexError` (the function requires "DD-MM-YYYY HH:MM", per its own
docstring). -/
theorem convert_datetime_amended :
    (_convert_datetime_str_to_datetime "" = .ok .empty) ∧
    (∀ (s t1 t2 ds ms ys th tm : String) (y mo d hh mm : Int) (dtv : Datetime),
      s ≠ "" → pySplitWs s = [t1, t2] →
      pySplitOn t1 '-' = [ds, ms, ys] →
      pyInt ys = some y → pyInt ms = some mo → pyInt ds = some d →
      pySplitOn t2 ':' = [th, tm] →
      pyInt th = some hh → pyInt tm = some mm →
      datetime_new y mo d hh mm = .ok dtv →
      _convert_datetime_str_to_datetime s = .ok (.dt dtv)) ∧
    (∀ (s t ds ms ys : String) (y mo d : Int),
      s ≠ "" → pySplitWs s = [t] →
      pySplitOn t '-' = [ds, ms, ys] →
      pyInt ys = some y → pyInt ms = some mo → pyInt ds = some d →
      _convert_datetime_str_to_datetime s = .error .indexError) := by
  refine ⟨rfl, ?_, ?_⟩
  · intro s t1 t2 ds ms ys th tm y mo d hh mm dtv hs0 hws hdp hy hmo hd hts hhh hmm hdt
    unfold _convert_datetime_str_to_datetime
    rw [if_neg hs0]
    simp only [hws, hdp, hts, pyIdx, pyIntE, hy, hmo, hd, hhh, hmm, hdt,
      List.getElem?_cons_zero, List.getElem?_cons_succ, except_bind_ok]
  · intro s t ds ms ys y mo d hs0 hws hdp hy hmo hd
    unfold _convert_datetime_str_to_datetime
    rw [if_neg hs0]
    simp only [hws, hdp, pyIdx, pyIntE, hy, hmo, hd,
      List.getElem?_cons_zero, List.getElem?_cons_succ, List.getElem?_nil,
      except_bind_ok, except_bind_error]

/-- Witness for `convert_datetime_amended`: the docstring's own example
"14-05-2014 11:00" and its date-only prefix. -/
theorem convert_datetime_amended_witness :
    _convert_datetime_str_to_datetime "14-05-2014 11:00" =
      .ok (.dt ⟨2014, 5, 14, 11, 0⟩) ∧
    _convert_datetime_str_to_datetime "14-05-2014" = .error .indexError :=
  ⟨convert_datetime_amended.2.1 "14-05-2014 11:00" "14-05-2014" "11:00"
      "14" "05" "2014" "11" "00" 2014 5 14 11 0 ⟨2014, 5, 14, 11, 0⟩
      (by decide) (by decide) (by decide) (by decide) (by decide) (by decide)
      (by decide) (by decide) (by decide) (by decide),
   convert_datetime_amended.2.2 "14-05-2014" "14-05-2014" "14" "05" "2014"
      2014 5 14
      (by decide) (by decide) (by decide) (by decide) (by decide) (by decide)⟩

/-- A programme file with a single inspection, "Dock A", matching the
PFSA record of `c1pfsaRows`. -/
def c8rows : List (List String) :=
  [["Week Comm", "Location", "Facility", "KS", "Comments/Date"],
   ["06/05/2024", "North", "Dock A", "X", "ok"]]

/-- C8 counterexample: the claim says running the join twice over the
same inputs yields identical Presentable Inspection lists.
`parse_programme` appends to the process-wide accumulators, so a second
run in the same process re-parses the file on top of the first run's
state and its `presentable_inspections` list differs from (strictly
extends) the first run's. -/
theorem rerunning_parse_programme_grows_output :
    ((parse_programme c8rows c1pfsaRows progInit).bind
        (parse_programme c8rows c1pfsaRows)).map
      ProgState.presentable_inspections ≠
    (parse_programme c8rows c1pfsaRows progInit).map
      ProgState.presentable_inspections := by
  decide

/-- C8 amended: the correlation mutates no existing record.  A
`parse_programme` run only appends to the three accumulators — the prior
`inspections_in_programme`, `presentable_inspections` and `WEEKS` entries
survive unchanged as prefixes — and the output is a function of the
inputs and prior state (the embedding is pure).  But a second run within
the same process therefore yields a longer presentable list, not an
identical one; the join is only idempotent across fresh process
invocations, each starting from the empty state. -/
theorem parse_programme_appends_only (rows : List (List String))
    (pfsaRows : List PfsaRawRow) (st st' : ProgState)
    (h : parse_programme rows pfsaRows st = .ok st') :
    st'.inspections_in_programme =
      st.inspections_in_programme ++
        st'.inspections_in_programme.drop st.inspections_in_programme.length ∧
    st'.presentable_inspections =
      st.presentable_inspections ++
        st'.presentable_inspections.drop st.presentable_inspections.length ∧
    st'.WEEKS = st.WEEKS ++ st'.WEEKS.drop st.WEEKS.length := by
  unfold parse_programme at h
  cases h1 : parse_pfsa_csv pfsaRows with
  | error e => rw [h1, except_bind_error] at h; cases h
  | ok pfsa =>
    rw [h1, except_bind_ok] at h
    cases h2 : _get_header_key_from_csv rows with
    | error e => rw [h2, except_bind_error] at h; cases h
    | ok hdr =>
      rw [h2, except_bind_ok] at h
      cases h3 : programme_scan_opt hdr.1 hdr.2 with
      | error e => rw [h3, except_bind_error] at h; cases h
      | ok scanned =>
        rw [h3, except_bind_ok] at h
        cases h4 : correlate pfsa
            (st.inspections_in_programme ++ scanned.1) with
        | error e => rw [h4, except_bind_error] at h; cases h
        | ok newPres =>
          rw [h4, except_bind_ok] at h
          cases h
          refine ⟨?_, ?_, ?_⟩ <;> simp [List.drop_left]

/-- The state after one `parse_programme` run on `c8rows` from the empty
state. -/
def c8s1 : ProgState :=
  ⟨[⟨⟨2024, 5, 6⟩,
     [("Week Comm", "06/05/2024"), ("Location", "North"),
      ("Facility", "Dock A"), ("KS", "X"), ("Comments/Date", "ok")]⟩],
   [⟨⟨2024, 5, 6⟩, "North", "Dock A", "KS", "ok",
     .date ⟨2025, 6, 1⟩, ⟨2024, 1, 1⟩⟩],
   [⟨2024, 5, 6⟩]⟩

/-- Witness for `parse_programme_appends_only` at a concrete run. -/
theorem parse_programme_appends_only_witness :
    c8s1.inspections_in_programme =
      progInit.inspections_in_programme ++
        c8s1.inspections_in_programme.drop
          progInit.inspections_in_programme.length ∧
    c8s1.presentable_inspections =
      progInit.presentable_inspections ++
        c8s1.presentable_inspections.drop
          progInit.presentable_inspections.length ∧
    c8s1.WEEKS = progInit.WEEKS ++ c8s1.WEEKS.drop progInit.WEEKS.length :=
  parse_programme_appends_only c8rows c1pfsaRows progInit c8s1 rfl

/-- A port with a numeric frequency target of six months and a last
inspection on 2024-01-15. -/
def c9port : PortFromCSVRow :=
  ⟨"Port X", none, ⟨2024, 1, 15⟩, "6", "S", "C"⟩

/-- C9: for a port whose `frequency_target` parses as an integer, the
reported next-due date is `last_inspection_date` plus that many calendar
months (`addMonths` is the embedding of `relativedelta(months=+ft)`,
including its `ValueError` outside years 1..9999; when that addition
raises, no report line is computed and the error propagates, which the
hypothesis `hadd` excludes). -/
theorem next_due_is_last_plus_frequency_months
    (inspections : List Inspection) (port : PortFromCSVRow) (ft : Int)
    (due : Date) (wk : Option Date)
    (hft : pyInt port.frequency_target = some ft)
    (hadd : addMonths port.last_inspection_date ft = .ok due)
    (hprog : in_current_programme inspections port = .ok wk) :
    calculate_port_within_allowed_period inspections port =
      .ok ⟨port.site_name, due, wk⟩ := by
  unfold calculate_port_within_allowed_period
  simp only [pyIntE, hft, hadd, hprog, except_bind_ok]

/-- Witness for `next_due_is_last_plus_frequency_months`: the spec's own
example, frequency "6" and last inspection 2024-01-15 give a next-due
date of 2024-07-15. -/
theorem next_due_witness :
    calculate_port_within_allowed_period [] c9port =
      .ok ⟨"Port X", ⟨2024, 7, 15⟩, none⟩ := by
  exact next_due_is_last_plus_frequency_months [] c9port 6 ⟨2024, 7, 15⟩ none
    (by decide) (by decide) rfl
